import Mathlib

/-!
Shallow embedding of the 3xui-tgbot reseller bot (src/db.py, src/telegram_bot.py).

Monetary amounts are embedded as exact rationals (`ℚ`).  Python's `round(x, 2)`
is embedded as rounding to 2 decimal places with ties going to the even integer
(round-half-even), which is Python's documented behaviour on exactly
representable values; binary floating-point representation error is not
modelled.  SQLite tables become Lean structures: append-only tables
(`wallet_ledger`, `orders`, `created_clients`, `promo_redemptions`) are lists
with the newest row at the head; keyed tables (`agents`, `promo_codes`,
`inbound_pricing`, `settings`) are functions to `Option` rows.  A Python
function that raises is embedded as `Except`; the sqlite connection context
manager commits only on success, so an error leaves the caller's state
unchanged (the caller keeps the old state).  Timestamps, random identifiers
(uuid, sub_id), access links and JSON meta payloads are not modelled: no claim
below depends on them.
-/

namespace XuiBot

/-- Python `round` to an integer: nearest integer, ties to even. -/
def roundHalfEven (q : ℚ) : ℤ :=
  let f : ℤ := ⌊q⌋
  let frac : ℚ := q - (f : ℚ)
  if frac < 1/2 then f
  else if 1/2 < frac then f + 1
  else if f % 2 = 0 then f else f + 1

/-- Python `round(q, 2)`: round to 2 decimal places, ties to even. -/
def round2 (q : ℚ) : ℚ := ((roundHalfEven (q * 100) : ℤ) : ℚ) / 100

/-- Modelled from the spec: rounding "half-up to 2 decimal places", the mode
the specification ascribes to the pricing formula (for comparison with the
source's `round2`). -/
def roundHalfUp (q : ℚ) : ℤ :=
  let f : ℤ := ⌊q⌋
  if q - (f : ℚ) < 1/2 then f else f + 1

/-- Modelled from the spec: `round(·, 2)` with ties away from the floor. -/
def round2HalfUp (q : ℚ) : ℚ := ((roundHalfUp (q * 100) : ℤ) : ℚ) / 100

/-! Python string primitives, embedded structurally over the character list
(core's iterator-based `String` functions do not reduce in the kernel). -/

/-- Python `str.upper()` (ASCII model). -/
def strUpper (s : String) : String := ⟨s.data.map Char.toUpper⟩

/-- Python `str.lower()` (ASCII model). -/
def strLower (s : String) : String := ⟨s.data.map Char.toLower⟩

/-- Python `str.strip()`. -/
def strTrim (s : String) : String :=
  ⟨(((s.data.dropWhile Char.isWhitespace).reverse).dropWhile Char.isWhitespace).reverse⟩

/-- Python `str.split(",")`. -/
def strSplitComma (s : String) : List String :=
  (s.data.foldr (fun c acc =>
    if c = ',' then [] :: acc
    else match acc with
         | h :: t => (c :: h) :: t
         | [] => [[c]]) [[]]).map (fun l => (⟨l⟩ : String))

/-- Python `text.isdigit()` followed by `int(text)` (ASCII digits). -/
def strToNat? (s : String) : Option Nat :=
  if s.data ≠ [] ∧ s.data.all Char.isDigit then
    some (s.data.foldl (fun n c => 10 * n + (c.toNat - 48)) 0)
  else none

/-- Python `str.startswith`. -/
def strStartsWith (s p : String) : Bool := p.data.isPrefixOf s.data

/-- A row of the `agents` table (db.py, `init_db`). -/
structure AgentRow where
  role : String := "reseller"
  isActive : Bool := true
  balance : ℚ := 0
  lifetimeTopup : ℚ := 0
  preferredInbound : Option Nat := none
  deriving Repr, DecidableEq

/-- A row of the `wallet_ledger` table: signed amount plus reason. -/
structure LedgerEntry where
  tgId : Nat
  amount : ℚ
  reason : String
  meta : String := ""
  deriving Repr, DecidableEq

/-- A row of the `promo_codes` table. -/
structure PromoRow where
  discountPercent : ℚ
  maxUses : Option Nat
  usedCount : Nat := 0
  active : Bool := true
  deriving Repr, DecidableEq

/-- A row of the `orders` table. -/
structure OrderRow where
  tgId : Nat
  inboundId : Nat
  kind : String
  days : Nat
  gb : Nat
  count : Nat
  grossPrice : ℚ
  discountPercent : ℚ
  netPrice : ℚ
  status : String
  deriving Repr, DecidableEq

/-- A row of the `created_clients` table (random uuid/link/sub fields omitted). -/
structure CreatedClientRow where
  tgId : Nat
  inboundId : Nat
  email : String
  days : Nat
  gb : Nat
  startAfterFirstUse : Bool
  autoRenew : Bool
  deriving Repr, DecidableEq

/-- A row of the `inbound_pricing` table. -/
structure InboundRule where
  enabled : Bool
  pricePerGb : Option ℚ
  pricePerDay : Option ℚ
  deriving Repr, DecidableEq

/-- The persisted datastore: every table of db.py's `init_db` that the
modelled operations touch, plus the two pricing settings rows. -/
structure DBState where
  agents : Nat → Option AgentRow
  ledger : List LedgerEntry
  promos : String → Option PromoRow
  redemptions : List (String × Nat)
  orders : List OrderRow
  createdClients : List CreatedClientRow
  pricePerGb : ℚ
  pricePerDay : ℚ
  inboundRules : Nat → Option InboundRule

/-- Fresh database: `init_db` defaults (`price_per_gb` 0.15, `price_per_day` 0.10). -/
def emptyDB : DBState :=
  { agents := fun _ => none
    ledger := []
    promos := fun _ => none
    redemptions := []
    orders := []
    createdClients := []
    pricePerGb := 3/20
    pricePerDay := 1/10
    inboundRules := fun _ => none }

/-- `SELECT balance FROM agents WHERE tg_id=?`, defaulting to 0 when the row
is missing (both `add_balance` and `deduct_balance` read it this way). -/
def balanceOf (s : DBState) (tg : Nat) : ℚ :=
  ((s.agents tg).map (·.balance)).getD 0

/-- `UPDATE agents ... WHERE tg_id=?`: a no-op when the row is missing. -/
def updateAgent (s : DBState) (tg : Nat) (f : AgentRow → AgentRow) : DBState :=
  { s with agents := fun t => if t = tg then (s.agents t).map f else s.agents t }

/-- db.py `ensure_agent`: `INSERT ... ON CONFLICT DO UPDATE` refreshing only
the name fields, so balance and ledger are untouched when the row exists. -/
def ensure_agent (s : DBState) (tg : Nat) (role : String) : DBState :=
  match s.agents tg with
  | some _ => s
  | none =>
      { s with agents := fun t =>
          if t = tg then
            some { role := role, isActive := true, balance := 0,
                   lifetimeTopup := 0, preferredInbound := none }
          else s.agents t }

/-- db.py `add_balance`: unconditionally adds `amount` to the cached balance
(counting it into `lifetime_topup` only for positive top-ups), appends a
ledger row with the same signed amount, and returns the new balance. -/
def add_balance (s : DBState) (tg : Nat) (amount : ℚ) (reason meta : String) :
    DBState × ℚ :=
  let s1 := updateAgent s tg (fun a =>
    { a with balance := a.balance + amount
             lifetimeTopup := a.lifetimeTopup +
               (if 0 < amount ∧ strStartsWith reason "topup" then amount else 0) })
  let s2 := { s1 with ledger := { tgId := tg, amount := amount, reason := reason, meta := meta } :: s1.ledger }
  (s2, balanceOf s2 tg)

inductive WalletError
  | insufficientBalance
  deriving Repr, DecidableEq

/-- db.py `deduct_balance`: reads the balance, raises `ValueError`
("Insufficient balance") before any write when `bal < amount`, otherwise
subtracts from the balance and appends a ledger row with `-amount`. -/
def deduct_balance (s : DBState) (tg : Nat) (amount : ℚ) (reason meta : String) :
    Except WalletError (DBState × ℚ) :=
  let bal := balanceOf s tg
  if bal < amount then .error .insufficientBalance
  else
    let s1 := updateAgent s tg (fun a => { a with balance := a.balance - amount })
    let s2 := { s1 with ledger := { tgId := tg, amount := -amount, reason := reason, meta := meta } :: s1.ledger }
    .ok (s2, balanceOf s2 tg)

inductive PromoError
  | notFound
  | exhausted
  | alreadyUsed
  deriving Repr, DecidableEq

/-- The usage-cap test of db.py `apply_promo`:
`p["max_uses"] is not None and p["used_count"] >= p["max_uses"]`. -/
def promoExhausted (p : PromoRow) : Bool :=
  match p.maxUses with
  | some m => decide (m ≤ p.usedCount)
  | none => false

/-- db.py `apply_promo`: uppercase the code, look it up among active rows
(`WHERE code=? AND active=1`), check the usage cap, check the per-user
redemption row, then insert the redemption and increment `used_count`. -/
def apply_promo (s : DBState) (code : String) (tg : Nat) :
    Except PromoError (DBState × ℚ) :=
  let c := strUpper code
  match s.promos c with
  | none => .error .notFound
  | some p =>
      if ¬ p.active then .error .notFound
      else if promoExhausted p then .error .exhausted
      else if (c, tg) ∈ s.redemptions then .error .alreadyUsed
      else
        .ok ({ s with
                redemptions := (c, tg) :: s.redemptions
                promos := fun x =>
                  if x = c then some { p with usedCount := p.usedCount + 1 }
                  else s.promos x },
             p.discountPercent)

/-- The state the caller holds after `apply_promo`: unchanged when the call
raised (the transaction is rolled back), the new state otherwise. -/
def applyPromoState (s : DBState) (code : String) (tg : Nat) : DBState :=
  match apply_promo s code tg with
  | .ok (s', _) => s'
  | .error _ => s

/-- The discount the caller observes from `apply_promo`. -/
def applyPromoResult (s : DBState) (code : String) (tg : Nat) :
    Except PromoError ℚ :=
  (apply_promo s code tg).map (·.2)

/-- db.py `create_order`: appends a row to `orders`. -/
def create_order (s : DBState) (tg inboundId : Nat) (kind : String)
    (days gb count : Nat) (gross disc net : ℚ) (status : String) : DBState :=
  { s with orders :=
      { tgId := tg, inboundId := inboundId, kind := kind, days := days,
        gb := gb, count := count, grossPrice := gross,
        discountPercent := disc, netPrice := net, status := status } :: s.orders }

/-- db.py `save_created_client`: appends a row to `created_clients`. -/
def save_created_client (s : DBState) (tg inboundId : Nat) (email : String)
    (days gb : Nat) (saf ar : Bool) : DBState :=
  { s with createdClients :=
      { tgId := tg, inboundId := inboundId, email := email, days := days,
        gb := gb, startAfterFirstUse := saf, autoRenew := ar } :: s.createdClients }

/-! ## Pricing (telegram_bot.py `inbound_price`, `order_total_price`) -/

inductive PriceError
  | inboundDisabled
  deriving Repr, DecidableEq

/-- telegram_bot.py `inbound_price`: a present-but-disabled per-inbound rule
raises; otherwise each of `price_per_gb` / `price_per_day` comes from the rule
when non-NULL there and from the global settings otherwise, and the gross is
`round(gb * ppgb + days * ppday, 2)`. -/
def inbound_price (s : DBState) (inboundId days gb : Nat) :
    Except PriceError ℚ :=
  match s.inboundRules inboundId with
  | some rule =>
      if ¬ rule.enabled then .error .inboundDisabled
      else .ok (round2 ((gb : ℚ) * rule.pricePerGb.getD s.pricePerGb +
                        (days : ℚ) * rule.pricePerDay.getD s.pricePerDay))
  | none =>
      .ok (round2 ((gb : ℚ) * s.pricePerGb + (days : ℚ) * s.pricePerDay))

inductive Kind
  | single
  | bulk
  | multi
  deriving Repr, DecidableEq

/-- The order string stored in the `orders.kind` column. -/
def Kind.str : Kind → String
  | .single => "single"
  | .bulk => "bulk"
  | .multi => "multi"

/-- The wizard's in-progress order dict (`context.user_data["wizard"]`).
Fields not yet collected hold their defaults, mirroring absent dict keys. -/
structure Wizard where
  kind : Kind := .single
  inboundId : Nat := 0
  inboundIds : List Nat := []
  remark : String := ""
  baseRemark : String := ""
  count : Nat := 0
  days : Nat := 0
  gb : Nat := 0
  startAfterFirstUse : Bool := false
  autoRenew : Bool := false
  deriving Repr, DecidableEq

/-- telegram_bot.py `order_count`. -/
def order_count (w : Wizard) : Nat :=
  match w.kind with
  | .bulk => w.count
  | .multi => w.inboundIds.length
  | .single => 1

/-- telegram_bot.py `order_total_price`: for `multi` the rounded sum of the
per-inbound prices, otherwise the rounded unit price times the count. -/
def order_total_price (s : DBState) (w : Wizard) : Except PriceError ℚ :=
  match w.kind with
  | .multi => do
      let prices ← w.inboundIds.mapM (fun i => inbound_price s i w.days w.gb)
      pure (round2 prices.sum)
  | _ => do
      let unit ← inbound_price s w.inboundId w.days w.gb
      pure (round2 (unit * (order_count w : ℚ)))

/-! ## Wizard input validation and state machine (telegram_bot.py `text_flow`) -/

/-- Validation bounds (env defaults `MAX_PLAN_DAYS` etc.). -/
def MAX_DAYS : Nat := 365

def MAX_GB : Nat := 2000

def MAX_BULK_COUNT : Nat := 100

/-- telegram_bot.py `parse_positive_int`: digits only (so no sign), then
reject zero.  ASCII digit strings are modelled; `String.toNat?` succeeds on
exactly the nonempty all-digit strings. -/
def parse_positive_int (text : String) : Option Nat :=
  match strToNat? text with
  | none => none
  | some v => if v = 0 then none else some v

/-- telegram_bot.py `is_cancel` (`CANCEL_OPTIONS` restricted to its ASCII
member; the Persian token behaves identically). -/
def is_cancel (text : String) : Bool :=
  strLower (strTrim text) = "cancel" ∨ strLower (strTrim text) = "لغو"

/-- telegram_bot.py `normalize_remark`: strip, length 2..64, charset
`[A-Za-z0-9_-]`. -/
def normalize_remark (text : String) : Option String :=
  let remark := strTrim text
  if remark.length < 2 ∨ 64 < remark.length then none
  else if ¬ remark.toList.all (fun c => c.isAlphanum || c = '_' || c = '-') then none
  else some remark

/-- Helper loop of telegram_bot.py `parse_inbound_ids`: parse each part,
fail on the first invalid one, drop duplicates while keeping first
occurrences. -/
def parse_inbound_ids_go : List String → List Nat → Option (List Nat)
  | [], acc => some acc
  | part :: rest, acc =>
      match parse_positive_int part with
      | none => none
      | some v =>
          if v ∈ acc then parse_inbound_ids_go rest acc
          else parse_inbound_ids_go rest (acc ++ [v])

/-- telegram_bot.py `parse_inbound_ids`. -/
def parse_inbound_ids (text : String) : Option (List Nat) :=
  let parts := ((strSplitComma text).map strTrim).filter (· ≠ "")
  if parts = [] then none
  else match parse_inbound_ids_go parts [] with
       | none => none
       | some ids => if ids = [] then none else some ids

/-- The `context.user_data["flow"]` tag restricted to the order wizard. -/
inductive Flow
  | idle
  | wInbound
  | wInbounds
  | wRemark
  | wBase
  | wCount
  | wDays
  | wGb
  | wStartAfterFirstUse
  | wAutoRenew
  | wPreview
  deriving Repr, DecidableEq

/-- The per-user conversation session: flow tag, in-progress wizard dict, and
the pending promo discount (`context.user_data["promo_discount"]`). -/
structure Session where
  flow : Flow := .idle
  wiz : Wizard := {}
  promoDiscount : Option ℚ := none
  deriving Repr, DecidableEq

/-- telegram_bot.py `reset_flow` (leaves the promo discount alone). -/
def reset_flow (sess : Session) : Session :=
  { sess with flow := .idle, wiz := {} }

/-- What one `text_flow` turn did, from the wizard's point of view. -/
inductive StepAction
  | reprompt
  | advanced
  | canceled
  | priceError
  | confirm
  deriving Repr, DecidableEq

/-- Shared tail of the inbound steps: `single` goes to the remark step,
`bulk` to the base-remark step. -/
def afterInboundFlow (k : Kind) : Flow :=
  match k with
  | .single => .wRemark
  | _ => .wBase

/-- One textual turn of telegram_bot.py `text_flow`, restricted to the order
wizard flows (the admin and promo flows are modelled as separate functions).
The database is read for the price preview and never written: every branch
below only touches the session, matching the source, where no wizard input
branch calls a mutating db function.  A `y`/`yes` answer in the preview state
returns `.confirm`; the caller then runs `finalize_order`. -/
def wizard_text_step (s : DBState) (agent : Option AgentRow) (sess : Session)
    (txt : String) : Session × StepAction :=
  if is_cancel txt then
    ({ reset_flow sess with promoDiscount := none }, .canceled)
  else
    match sess.flow with
    | .wInbounds =>
        match parse_inbound_ids txt with
        | none => (sess, .reprompt)
        | some ids =>
            ({ sess with wiz := { sess.wiz with inboundIds := ids },
                         flow := .wRemark }, .advanced)
    | .wInbound =>
        if strLower txt = "default" then
          match agent.bind (·.preferredInbound) with
          | none => (sess, .reprompt)
          | some p =>
              if p = 0 then (sess, .reprompt)
              else
                ({ sess with wiz := { sess.wiz with inboundId := p },
                             flow := afterInboundFlow sess.wiz.kind }, .advanced)
        else
          match parse_positive_int txt with
          | none => (sess, .reprompt)
          | some iid =>
              ({ sess with wiz := { sess.wiz with inboundId := iid },
                           flow := afterInboundFlow sess.wiz.kind }, .advanced)
    | .wRemark =>
        match normalize_remark txt with
        | none => (sess, .reprompt)
        | some r =>
            ({ sess with wiz := { sess.wiz with remark := r },
                         flow := .wDays }, .advanced)
    | .wBase =>
        match normalize_remark txt with
        | none => (sess, .reprompt)
        | some r =>
            ({ sess with wiz := { sess.wiz with baseRemark := r },
                         flow := .wCount }, .advanced)
    | .wCount =>
        match parse_positive_int txt with
        | none => (sess, .reprompt)
        | some c =>
            if MAX_BULK_COUNT < c then (sess, .reprompt)
            else
              ({ sess with wiz := { sess.wiz with count := c },
                           flow := .wDays }, .advanced)
    | .wDays =>
        match parse_positive_int txt with
        | none => (sess, .reprompt)
        | some d =>
            if MAX_DAYS < d then (sess, .reprompt)
            else
              ({ sess with wiz := { sess.wiz with days := d },
                           flow := .wGb }, .advanced)
    | .wGb =>
        match parse_positive_int txt with
        | none => (sess, .reprompt)
        | some g =>
            if MAX_GB < g then (sess, .reprompt)
            else
              ({ sess with wiz := { sess.wiz with gb := g },
                           flow := .wStartAfterFirstUse }, .advanced)
    | .wStartAfterFirstUse =>
        let v := strLower txt
        if v = "y" ∨ v = "yes" ∨ v = "n" ∨ v = "no" then
          ({ sess with wiz := { sess.wiz with startAfterFirstUse := v = "y" ∨ v = "yes" },
                       flow := .wAutoRenew }, .advanced)
        else (sess, .reprompt)
    | .wAutoRenew =>
        let v := strLower txt
        if v = "y" ∨ v = "yes" ∨ v = "n" ∨ v = "no" then
          let wiz := { sess.wiz with autoRenew := v = "y" ∨ v = "yes" }
          match order_total_price s wiz with
          | .error _ => (reset_flow { sess with wiz := wiz }, .priceError)
          | .ok _ => ({ sess with wiz := wiz, flow := .wPreview }, .advanced)
        else (sess, .reprompt)
    | .wPreview =>
        let v := strLower txt
        if v = "n" ∨ v = "no" then
          ({ reset_flow sess with promoDiscount := none }, .canceled)
        else if v = "y" ∨ v = "yes" then (sess, .confirm)
        else (sess, .reprompt)
    | .idle => (sess, .reprompt)

/-! ## The order fulfillment saga (telegram_bot.py `finalize_order`) -/

/-- One call to the external x-ui panel made inside the saga's `try` block. -/
inductive ApiCall
  | login
  | getInbound (inboundId : Nat)
  | addClients (inboundId : Nat) (clients : Nat)
  deriving Repr, DecidableEq

/-- How one `finalize_order` run ended. -/
inductive SagaResult
  | pricingError
  | abortedInactive
  | abortedInsufficient
  | failed
  | success
  deriving Repr, DecidableEq

/-- The observable outcome of one saga run: final datastore, final session,
result class, and the trace of external calls attempted (with whether each
succeeded — an external failure is an exception in the source). -/
structure SagaOut where
  db : DBState
  sess : Session
  result : SagaResult
  trace : List (ApiCall × Bool)

/-- The compensation path of `finalize_order`'s `except` block: refund the
net amount with reason "order.refund" and persist a failed order row. -/
def sagaFail (st : DBState) (sess1 : Session) (uid inbound0 : Nat) (w : Wizard)
    (count : Nat) (gross disc net : ℚ) (tr : List (ApiCall × Bool)) : SagaOut :=
  let sf := (add_balance st uid net "order.refund" "").1
  let sf2 := create_order sf uid inbound0 w.kind.str w.days w.gb count gross disc net "failed"
  { db := sf2, sess := reset_flow sess1, result := .failed, trace := tr }

/-- Python `inbound_ids or [inbound_id]`: an empty (or absent) multi list
falls back to the single inbound. -/
def orDefault (l : List Nat) (d : Nat) : List Nat :=
  if l = [] then [d] else l

/-- The `try` block of `finalize_order` after a successful debit: login, then
the kind-specific provisioning.  Every branch calls db.py's
`save_created_client` with 11 positional arguments, but the function takes 9
parameters (src/db.py, `save_created_client`), so each such call raises
`TypeError` before its body runs: no `created_clients` row is ever inserted
and the block never completes — except the `bulk` corner case `count = 0`,
whose loop body never runs.  In `single` the raising save (line 1053)
precedes the one `add_clients` call (line 1066); in `bulk` (count ≥ 1) the
loop's first iteration raises (line 1091) before `add_clients` (line 1104);
in `multi` the first inbound's `get_inbound` and `add_clients` run (lines
1110, 1126) before the raising save (line 1129), and later inbounds are
never reached.  `oracle n` says whether the n-th external call succeeds.
Returns the state after the block (always unchanged — no save ever commits),
the call trace, and whether the block completed. -/
def runProvision (oracle : Nat → Bool) (_uid : Nat) (w : Wizard)
    (s1 : DBState) : DBState × List (ApiCall × Bool) × Bool :=
  if ¬ oracle 0 then (s1, [(.login, false)], false)
  else
    match w.kind with
    | .single =>
        if ¬ oracle 1 then
          (s1, [(.login, true), (.getInbound w.inboundId, false)], false)
        else
          -- save_created_client raises TypeError before api.add_clients
          (s1, [(.login, true), (.getInbound w.inboundId, true)], false)
    | .bulk =>
        if ¬ oracle 1 then
          (s1, [(.login, true), (.getInbound w.inboundId, false)], false)
        else if w.count = 0 then
          -- empty loop: no save call is made and add_clients([]) is reached
          if ¬ oracle 2 then
            (s1, [(.login, true), (.getInbound w.inboundId, true),
                  (.addClients w.inboundId 0, false)], false)
          else
            (s1, [(.login, true), (.getInbound w.inboundId, true),
                  (.addClients w.inboundId 0, true)], true)
        else
          -- the first iteration's save_created_client raises TypeError
          -- before api.add_clients
          (s1, [(.login, true), (.getInbound w.inboundId, true)], false)
    | .multi =>
        let iid := (orDefault w.inboundIds w.inboundId).headD 0
        if ¬ oracle 1 then
          (s1, [(.login, true), (.getInbound iid, false)], false)
        else if ¬ oracle 2 then
          (s1, [(.login, true), (.getInbound iid, true),
                (.addClients iid 1, false)], false)
        else
          -- save_created_client after add_clients raises TypeError; the
          -- loop never reaches a second inbound
          (s1, [(.login, true), (.getInbound iid, true),
                (.addClients iid 1, true)], false)

/-- telegram_bot.py `finalize_order`.  In source order: compute the count and
gross (an `InboundDisabled` error here propagates before anything else), pop
the promo discount from the session, compute the net, guard on an active
agent row, debit the net ("order.charge"), run the provisioning block, and
either persist a success order row or compensate via `sagaFail`. -/
def finalize_order (s : DBState) (sess : Session) (uid : Nat) (w : Wizard)
    (oracle : Nat → Bool) : SagaOut :=
  let count := order_count w
  match order_total_price s w with
  | .error _ => { db := s, sess := sess, result := .pricingError, trace := [] }
  | .ok gross =>
      let disc := sess.promoDiscount.getD 0
      let sess1 : Session := { sess with promoDiscount := none }
      let net := round2 (gross * (1 - disc / 100))
      let inboundIds := orDefault w.inboundIds w.inboundId
      let inbound0 := inboundIds.headD 0
      match s.agents uid with
      | none =>
          { db := s, sess := reset_flow sess1, result := .abortedInactive, trace := [] }
      | some ag =>
          if ¬ ag.isActive then
            { db := s, sess := reset_flow sess1, result := .abortedInactive, trace := [] }
          else
            match deduct_balance s uid net "order.charge" "" with
            | .error _ =>
                { db := s, sess := reset_flow sess1,
                  result := .abortedInsufficient, trace := [] }
            | .ok (s1, _) =>
                let r := runProvision oracle uid w s1
                if r.2.2 then
                  { db := create_order r.1 uid inbound0 w.kind.str w.days w.gb
                      count gross disc net "success",
                    sess := reset_flow sess1, result := .success, trace := r.2.1 }
                else
                  sagaFail r.1 sess1 uid inbound0 w count gross disc net r.2.1

/-- The admin "Charge Wallet" flow of `text_flow` after its parsing checks:
`ensure_agent` then `add_balance` with reason "topup.admin".  The amount is
parsed with `float(...)`, which accepts negative values unchecked. -/
def admin_charge_wallet (s : DBState) (adminId tid : Nat) (amount : ℚ) :
    DBState × ℚ :=
  add_balance (ensure_agent s tid "reseller") tid amount "topup.admin"
    ("by:" ++ toString adminId)

/-! ## Wallet operation sequences and the ledger invariant -/

/-- One WalletLedger operation, as issued by any caller. -/
inductive WalletOp
  | credit (tg : Nat) (amount : ℚ) (reason meta : String)
  | debit (tg : Nat) (amount : ℚ) (reason meta : String)
  deriving Repr

/-- The state a caller holds after one wallet operation (a failed debit
raises before writing, so the caller keeps the old state). -/
def applyOp (s : DBState) : WalletOp → DBState
  | .credit tg a r m => (add_balance s tg a r m).1
  | .debit tg a r m =>
      match deduct_balance s tg a r m with
      | .ok (s', _) => s'
      | .error _ => s

/-- Run a sequence of wallet operations. -/
def runOps (s : DBState) : List WalletOp → DBState
  | [] => s
  | op :: rest => runOps (applyOp s op) rest

/-- Sum of the signed amounts of one agent's ledger rows. -/
def ledgerSum (s : DBState) (tg : Nat) : ℚ :=
  ((s.ledger.filter (fun e => e.tgId == tg)).map (·.amount)).sum

/-- The spec's ledger-conservation invariant for one agent. -/
def ledgerInv (s : DBState) (tg : Nat) : Prop :=
  balanceOf s tg = ledgerSum s tg

/-- A datastore holding a single agent (tg id 7) with the given balance. -/
def dbAgent7 (b : ℚ) : DBState :=
  { emptyDB with agents := fun t => if t = 7 then some { balance := b } else none }

/-- A store holding one deactivated promo code. -/
def dbPromoInactive : DBState :=
  { emptyDB with promos := fun x =>
      if x = "DEAD10" then some { discountPercent := 10, maxUses := none, active := false }
      else none }

/-- A store holding one unlimited promo code. -/
def dbPromoOpen : DBState :=
  { emptyDB with promos := fun x =>
      if x = "OPEN10" then some { discountPercent := 10, maxUses := none }
      else none }

/-- Wallet operations whose amounts respect the spec's signature
(`credit(amount>0)`): a credit carries a non-negative amount; debits guard
themselves. -/
def opSafe : WalletOp → Prop
  | .credit _ a _ _ => 0 ≤ a
  | .debit _ _ _ _ => True

/-- The gross the saga computes (0 when pricing raised - unused then). -/
def sagaGross (s : DBState) (w : Wizard) : ℚ :=
  ((order_total_price s w).toOption).getD 0

/-- The pending discount the saga pops from the session. -/
def sagaDisc (sess : Session) : ℚ := sess.promoDiscount.getD 0

/-- The net the saga charges: `round(gross * (1 - disc / 100), 2)`. -/
def sagaNet (s : DBState) (sess : Session) (w : Wizard) : ℚ :=
  round2 (sagaGross s w * (1 - sagaDisc sess / 100))

/-- `inbound_ids[0]` as the saga stores it on the order row. -/
def sagaInbound0 (w : Wizard) : Nat :=
  (orDefault w.inboundIds w.inboundId).headD 0

/-- Saga scenario store: agent 7 with balance `b`, global prices 0.34/GB and
0.10/day, so that 50 GB for 30 days grosses exactly 20. -/
def sagaDB (b : ℚ) : DBState :=
  { emptyDB with
      agents := fun t => if t = 7 then some { balance := b } else none
      pricePerGb := 17/50
      pricePerDay := 1/10 }

/-- Saga scenario order: one single client, 30 days, 50 GB, inbound 3. -/
def wSingle : Wizard :=
  { kind := .single, inboundId := 3, remark := "user1", days := 30, gb := 50 }

/-- Saga scenario session: at the preview step with a pending 25% discount. -/
def sessPromo : Session :=
  { flow := .wPreview, wiz := wSingle, promoDiscount := some 25 }

/-- An oracle failing every external call from the n-th one on. -/
def failFrom (n : Nat) : Nat → Bool := fun i => decide (i < n)

/-! ### Helper lemmas about the embedded operations -/

theorem balanceOf_updateAgent_other (s : DBState) (tg t : Nat)
    (f : AgentRow → AgentRow) (h : t ≠ tg) :
    balanceOf (updateAgent s tg f) t = balanceOf s t := by
  simp [balanceOf, updateAgent, h]

theorem add_balance_ledger (s : DBState) (tg : Nat) (a : ℚ) (r m : String) :
    (add_balance s tg a r m).1.ledger
      = { tgId := tg, amount := a, reason := r, meta := m } :: s.ledger := rfl

theorem add_balance_orders (s : DBState) (tg : Nat) (a : ℚ) (r m : String) :
    (add_balance s tg a r m).1.orders = s.orders := rfl

theorem add_balance_createdClients (s : DBState) (tg : Nat) (a : ℚ) (r m : String) :
    (add_balance s tg a r m).1.createdClients = s.createdClients := rfl

theorem add_balance_balance_self (s : DBState) (tg : Nat) (a : ℚ) (r m : String)
    (h : (s.agents tg).isSome) :
    balanceOf (add_balance s tg a r m).1 tg = balanceOf s tg + a := by
  rcases Option.isSome_iff_exists.mp h with ⟨row, hrow⟩
  simp [add_balance, balanceOf, updateAgent, hrow]

theorem add_balance_balance_other (s : DBState) (tg t : Nat) (a : ℚ) (r m : String)
    (h : t ≠ tg) :
    balanceOf (add_balance s tg a r m).1 t = balanceOf s t := by
  simp [add_balance, balanceOf, updateAgent, h]

theorem add_balance_agents_isSome (s : DBState) (tg t : Nat) (a : ℚ) (r m : String)
    (h : (s.agents t).isSome) :
    ((add_balance s tg a r m).1.agents t).isSome := by
  by_cases ht : t = tg
  · subst ht
    rcases Option.isSome_iff_exists.mp h with ⟨row, hrow⟩
    simp [add_balance, updateAgent, hrow]
  · simpa [add_balance, updateAgent, ht] using h

theorem deduct_balance_error_of_lt (s : DBState) (tg : Nat) (a : ℚ) (r m : String)
    (h : balanceOf s tg < a) :
    deduct_balance s tg a r m = .error .insufficientBalance := by
  simp [deduct_balance, h]

/-- Elimination form of a successful debit: the balance check passed and the
new state is the balance update plus one ledger row. -/
theorem deduct_balance_ok_elim (s s' : DBState) (tg : Nat) (a b : ℚ) (r m : String)
    (h : deduct_balance s tg a r m = .ok (s', b)) :
    ¬ balanceOf s tg < a ∧
      s' = { updateAgent s tg (fun x => { x with balance := x.balance - a }) with
             ledger := { tgId := tg, amount := -a, reason := r, meta := m } :: s.ledger } := by
  by_cases hc : balanceOf s tg < a
  · simp [deduct_balance, hc] at h
  · refine ⟨hc, ?_⟩
    simp only [deduct_balance, if_neg hc, Except.ok.injEq, Prod.mk.injEq] at h
    exact h.1.symm

theorem deduct_balance_ok_ledger (s s' : DBState) (tg : Nat) (a b : ℚ) (r m : String)
    (h : deduct_balance s tg a r m = .ok (s', b)) :
    s'.ledger = { tgId := tg, amount := -a, reason := r, meta := m } :: s.ledger := by
  rw [(deduct_balance_ok_elim s s' tg a b r m h).2]

theorem deduct_balance_ok_orders (s s' : DBState) (tg : Nat) (a b : ℚ) (r m : String)
    (h : deduct_balance s tg a r m = .ok (s', b)) :
    s'.orders = s.orders := by
  rw [(deduct_balance_ok_elim s s' tg a b r m h).2]; rfl

theorem deduct_balance_ok_createdClients (s s' : DBState) (tg : Nat) (a b : ℚ)
    (r m : String) (h : deduct_balance s tg a r m = .ok (s', b)) :
    s'.createdClients = s.createdClients := by
  rw [(deduct_balance_ok_elim s s' tg a b r m h).2]; rfl

theorem deduct_balance_ok_balance_self (s s' : DBState) (tg : Nat) (a b : ℚ)
    (r m : String) (hA : (s.agents tg).isSome)
    (h : deduct_balance s tg a r m = .ok (s', b)) :
    balanceOf s' tg = balanceOf s tg - a := by
  rcases Option.isSome_iff_exists.mp hA with ⟨row, hrow⟩
  rw [(deduct_balance_ok_elim s s' tg a b r m h).2]
  simp [balanceOf, updateAgent, hrow]

theorem deduct_balance_ok_balance_other (s s' : DBState) (tg t : Nat) (a b : ℚ)
    (r m : String) (ht : t ≠ tg)
    (h : deduct_balance s tg a r m = .ok (s', b)) :
    balanceOf s' t = balanceOf s t := by
  rw [(deduct_balance_ok_elim s s' tg a b r m h).2]
  simp [balanceOf, updateAgent, ht]

theorem deduct_balance_ok_agents_isSome (s s' : DBState) (tg t : Nat) (a b : ℚ)
    (r m : String) (hA : (s.agents t).isSome)
    (h : deduct_balance s tg a r m = .ok (s', b)) :
    (s'.agents t).isSome := by
  rw [(deduct_balance_ok_elim s s' tg a b r m h).2]
  by_cases ht : t = tg
  · subst ht
    rcases Option.isSome_iff_exists.mp hA with ⟨row, hrow⟩
    simp [updateAgent, hrow]
  · simpa [updateAgent, ht] using hA

theorem ledgerSum_add_balance_self (s : DBState) (tg : Nat) (a : ℚ) (r m : String) :
    ledgerSum (add_balance s tg a r m).1 tg = a + ledgerSum s tg := by
  simp [ledgerSum, add_balance, updateAgent, List.filter_cons]

theorem ledgerSum_add_balance_other (s : DBState) (tg t : Nat) (a : ℚ) (r m : String)
    (ht : t ≠ tg) :
    ledgerSum (add_balance s tg a r m).1 t = ledgerSum s t := by
  simp [ledgerSum, add_balance, updateAgent, List.filter_cons, Ne.symm ht]

/-- One wallet operation preserves the conservation invariant of any agent
whose row exists. -/
theorem applyOp_ledgerInv (s : DBState) (tg : Nat) (op : WalletOp)
    (hA : (s.agents tg).isSome) (hInv : ledgerInv s tg) :
    ledgerInv (applyOp s op) tg := by
  cases op with
  | credit tg' a r m =>
      unfold ledgerInv at hInv ⊢
      by_cases ht : tg = tg'
      · subst ht
        have hb := add_balance_balance_self s tg a r m hA
        have hl := ledgerSum_add_balance_self s tg a r m
        simp only [applyOp]
        rw [hb, hl, hInv]
        ring
      · have hb := add_balance_balance_other s tg' tg a r m ht
        have hl := ledgerSum_add_balance_other s tg' tg a r m ht
        simp only [applyOp]
        rw [hb, hl, hInv]
  | debit tg' a r m =>
      unfold ledgerInv at hInv ⊢
      rcases hE : deduct_balance s tg' a r m with e | ⟨s', b⟩
      · simpa [applyOp, hE] using hInv
      · by_cases ht : tg = tg'
        · subst ht
          have hb := deduct_balance_ok_balance_self s s' tg a b r m hA hE
          have hl : ledgerSum s' tg = -a + ledgerSum s tg := by
            have h1 := deduct_balance_ok_ledger s s' tg a b r m hE
            simp [ledgerSum, h1, List.filter_cons]
          simp only [applyOp, hE]
          rw [hb, hl, hInv]
          ring
        · have hb := deduct_balance_ok_balance_other s s' tg' tg a b r m ht hE
          have hl : ledgerSum s' tg = ledgerSum s tg := by
            have h1 := deduct_balance_ok_ledger s s' tg' a b r m hE
            simp [ledgerSum, h1, List.filter_cons, Ne.symm ht]
          simp only [applyOp, hE]
          rw [hb, hl, hInv]

/-- One wallet operation preserves existence of any agent row. -/
theorem applyOp_agents_isSome (s : DBState) (tg : Nat) (op : WalletOp)
    (hA : (s.agents tg).isSome) : ((applyOp s op).agents tg).isSome := by
  cases op with
  | credit tg' a r m => exact add_balance_agents_isSome s tg' tg a r m hA
  | debit tg' a r m =>
      rcases hE : deduct_balance s tg' a r m with e | ⟨s', b⟩
      · simpa [applyOp, hE] using hA
      · simpa [applyOp, hE] using
          deduct_balance_ok_agents_isSome s s' tg' tg a b r m hA hE

/-- Main induction: the conservation invariant survives any operation
sequence once the agent's row exists. -/
theorem runOps_ledgerInv (tg : Nat) (ops : List WalletOp) :
    ∀ s : DBState, (s.agents tg).isSome → ledgerInv s tg →
      ledgerInv (runOps s ops) tg := by
  induction ops with
  | nil => intro s _ hInv; exact hInv
  | cons op rest ih =>
      intro s hA hInv
      exact ih (applyOp s op)
        (applyOp_agents_isSome s tg op hA)
        (applyOp_ledgerInv s tg op hA hInv)

/-! ## Concrete scenario states used by witnesses and counterexamples -/

/-! ## Claims -/

/-- C2: for every agent and every sequence of credit and debit operations
starting from agent creation, the agent's cached balance equals the sum of
the signed amounts of that agent's ledger entries after each operation
(any intermediate point is an instance of the quantified `ops`). -/
theorem c2_ledger_conservation (s : DBState) (tg : Nat) (role : String)
    (ops : List WalletOp) (hA : s.agents tg = none) (hL : ledgerSum s tg = 0) :
    ledgerInv (runOps (ensure_agent s tg role) ops) tg := by
  apply runOps_ledgerInv
  · simp [ensure_agent, hA]
  · show balanceOf _ tg = ledgerSum _ tg
    have h1 : balanceOf (ensure_agent s tg role) tg = 0 := by
      simp [ensure_agent, hA, balanceOf]
    have h2 : ledgerSum (ensure_agent s tg role) tg = ledgerSum s tg := by
      simp [ensure_agent, hA, ledgerSum]
    rw [h1, h2, hL]

/-- Witness for C2: a fresh agent, a top-up of 5, a charge of 3, a failing
charge of 100 and a refund of 2 keep balance = Σ signed amounts. -/
theorem c2_ledger_conservation_witness :
    emptyDB.agents 7 = none ∧ ledgerSum emptyDB 7 = 0 ∧
      ledgerInv (runOps (ensure_agent emptyDB 7 "reseller")
        [.credit 7 5 "topup.manual" "", .debit 7 3 "order.charge" "",
         .debit 7 100 "order.charge" "", .credit 7 2 "order.refund" ""]) 7 :=
  ⟨rfl, by decide,
    c2_ledger_conservation emptyDB 7 "reseller"
      [.credit 7 5 "topup.manual" "", .debit 7 3 "order.charge" "",
       .debit 7 100 "order.charge" "", .credit 7 2 "order.refund" ""]
      rfl (by decide)⟩

/-- C3: for every agent and amount with balance < amount, the debit fails
with `InsufficientBalance`, the balance is unchanged and no ledger row is
appended. -/
theorem c3_debit_atomicity (s : DBState) (tg : Nat) (a : ℚ) (r m : String)
    (h : balanceOf s tg < a) :
    deduct_balance s tg a r m = .error .insufficientBalance ∧
      (applyOp s (.debit tg a r m)).ledger = s.ledger ∧
      balanceOf (applyOp s (.debit tg a r m)) tg = balanceOf s tg := by
  have he := deduct_balance_error_of_lt s tg a r m h
  exact ⟨he, by simp [applyOp, he], by simp [applyOp, he]⟩

/-- Witness for C3: balance 1, attempted debit of 5. -/
theorem c3_debit_atomicity_witness :
    balanceOf (dbAgent7 1) 7 < 5 ∧
      (deduct_balance (dbAgent7 1) 7 5 "order.charge" ""
          = .error .insufficientBalance ∧
        (applyOp (dbAgent7 1) (.debit 7 5 "order.charge" "")).ledger
          = (dbAgent7 1).ledger ∧
        balanceOf (applyOp (dbAgent7 1) (.debit 7 5 "order.charge" "")) 7
          = balanceOf (dbAgent7 1) 7) :=
  ⟨by decide, c3_debit_atomicity (dbAgent7 1) 7 5 "order.charge" "" (by decide)⟩

/-- Elimination form of a successful promo redemption. -/
theorem apply_promo_ok_elim (s s1 : DBState) (code : String) (tg : Nat) (d : ℚ)
    (h : apply_promo s code tg = .ok (s1, d)) :
    ∃ p, s.promos (strUpper code) = some p ∧ p.active = true ∧
      promoExhausted p = false ∧ (strUpper code, tg) ∉ s.redemptions ∧
      d = p.discountPercent ∧
      s1 = { s with
              redemptions := (strUpper code, tg) :: s.redemptions
              promos := fun x =>
                if x = strUpper code then some { p with usedCount := p.usedCount + 1 }
                else s.promos x } := by
  cases hp : s.promos (strUpper code) with
  | none => simp [apply_promo, hp] at h
  | some p =>
      by_cases hact : p.active
      · by_cases hex : promoExhausted p
        · simp [apply_promo, hp, hact, hex] at h
        · by_cases hmem : (strUpper code, tg) ∈ s.redemptions
          · simp [apply_promo, hp, hact, hex, hmem] at h
          · have h' : ({ s with
                redemptions := (strUpper code, tg) :: s.redemptions
                promos := fun x =>
                  if x = strUpper code then some { p with usedCount := p.usedCount + 1 }
                  else s.promos x } : DBState) = s1 ∧ p.discountPercent = d := by
              simpa [apply_promo, hp, hact, hex, hmem] using h
            exact ⟨p, rfl, hact, by simpa using hex, hmem, h'.2.symm, h'.1.symm⟩
      · simp [apply_promo, hp, hact] at h

/-- C8: `redeem` fails with `PromoNotFound` whenever the code is missing or
inactive, and makes no state change.  The persisted schema has no
`expires_at` column (db.py `init_db`, `promo_codes`), so a code is never
"expired": that disjunct of the claim holds vacuously. -/
theorem c8_promo_not_found (s : DBState) (code : String) (tg : Nat)
    (h : s.promos (strUpper code) = none ∨
      ∃ p, s.promos (strUpper code) = some p ∧ p.active = false) :
    apply_promo s code tg = .error .notFound ∧
      applyPromoState s code tg = s := by
  rcases h with h | ⟨p, hp, hact⟩
  · have h1 : apply_promo s code tg = .error .notFound := by
      simp [apply_promo, h]
    exact ⟨h1, by simp [applyPromoState, h1]⟩
  · have h1 : apply_promo s code tg = .error .notFound := by
      simp [apply_promo, hp, hact]
    exact ⟨h1, by simp [applyPromoState, h1]⟩

/-- Witness for C8: redeeming the inactive code DEAD10 (sent lowercase). -/
theorem c8_promo_not_found_witness :
    (∃ p, dbPromoInactive.promos (strUpper "dead10") = some p ∧ p.active = false) ∧
      (apply_promo dbPromoInactive "dead10" 7 = .error .notFound ∧
        applyPromoState dbPromoInactive "dead10" 7 = dbPromoInactive) :=
  ⟨⟨_, rfl, rfl⟩, c8_promo_not_found dbPromoInactive "dead10" 7 (.inr ⟨_, rfl, rfl⟩)⟩

/-- C7 counterexample: with `max_uses = 1`, a second redemption of the same
code by the same agent fails with `PromoExhausted`, not `PromoAlreadyUsed`
(the usage-cap check precedes the per-user check in db.py `apply_promo`). -/
theorem c7_counterexample :
    applyPromoResult
        { emptyDB with promos := fun x =>
            if x = "SAVE10" then some { discountPercent := 10, maxUses := some 1 }
            else none } "SAVE10" 7 = .ok 10 ∧
      applyPromoResult
        (applyPromoState
          { emptyDB with promos := fun x =>
              if x = "SAVE10" then some { discountPercent := 10, maxUses := some 1 }
              else none } "SAVE10" 7) "SAVE10" 7 = .error .exhausted ∧
      PromoError.exhausted ≠ PromoError.alreadyUsed :=
  ⟨rfl, rfl, by decide⟩

/-- C7 (amended): after one successful redeem, a second redeem of the same
code by the same agent fails — with exactly `PromoExhausted` when the stored
row's `used_count` has reached its `max_uses` cap, and with exactly
`PromoAlreadyUsed` otherwise — leaving the entire store (in particular
`used_count` and the redemption rows) unchanged. -/
theorem c7_promo_second_redeem (s s1 : DBState) (code : String) (tg : Nat) (d : ℚ)
    (h : apply_promo s code tg = .ok (s1, d)) :
    ∃ p1, s1.promos (strUpper code) = some p1 ∧
      apply_promo s1 code tg
        = .error (if promoExhausted p1 then .exhausted else .alreadyUsed) ∧
      applyPromoState s1 code tg = s1 := by
  obtain ⟨p, hp, hact, hex, hmem, hd, hs1⟩ := apply_promo_ok_elim s s1 code tg d h
  obtain ⟨pd, pmu, puc, pact⟩ := p
  simp only at hact
  subst hact
  have hlook : s1.promos (strUpper code) = some ⟨pd, pmu, puc + 1, true⟩ := by
    rw [hs1]; simp
  have hmem1 : (strUpper code, tg) ∈ s1.redemptions := by
    rw [hs1]; exact List.mem_cons_self _ _
  by_cases hex1 : promoExhausted ⟨pd, pmu, puc + 1, true⟩
  · have h2 : apply_promo s1 code tg = .error .exhausted := by
      simp [apply_promo, hlook, hex1]
    exact ⟨⟨pd, pmu, puc + 1, true⟩, hlook, by simp [hex1, h2],
      by simp [applyPromoState, h2]⟩
  · have h2 : apply_promo s1 code tg = .error .alreadyUsed := by
      simp [apply_promo, hlook, hex1, hmem1]
    exact ⟨⟨pd, pmu, puc + 1, true⟩, hlook, by simp [hex1, h2],
      by simp [applyPromoState, h2]⟩

/-- Witness for C7: an unlimited code redeemed twice by agent 7; here the
cap is never reached, and the second call fails with exactly
`PromoAlreadyUsed`. -/
theorem c7_promo_second_redeem_witness :
    apply_promo dbPromoOpen "OPEN10" 7
        = .ok (applyPromoState dbPromoOpen "OPEN10" 7, 10) ∧
      (∃ p1, (applyPromoState dbPromoOpen "OPEN10" 7).promos (strUpper "OPEN10")
            = some p1 ∧
        apply_promo (applyPromoState dbPromoOpen "OPEN10" 7) "OPEN10" 7
          = .error (if promoExhausted p1 then .exhausted else .alreadyUsed) ∧
        applyPromoState (applyPromoState dbPromoOpen "OPEN10" 7) "OPEN10" 7
          = applyPromoState dbPromoOpen "OPEN10" 7) ∧
      apply_promo (applyPromoState dbPromoOpen "OPEN10" 7) "OPEN10" 7
        = .error .alreadyUsed :=
  ⟨rfl, c7_promo_second_redeem dbPromoOpen _ "OPEN10" 7 10 rfl, rfl⟩

/-- `balanceOf` of a missing agent row is 0. -/
theorem balanceOf_of_agents_none (s : DBState) (tg : Nat)
    (h : s.agents tg = none) : balanceOf s tg = 0 := by
  simp [balanceOf, h]

/-- C6 counterexample: the admin Charge Wallet flow parses the amount with
`float(...)` and never checks its sign, so a charge of -5 against a
zero-balance agent drives the balance to -5 < 0. -/
theorem c6_counterexample :
    balanceOf (dbAgent7 0) 7 = 0 ∧
      (admin_charge_wallet (dbAgent7 0) 1 7 (-5)).2 = -5 ∧
      balanceOf (admin_charge_wallet (dbAgent7 0) 1 7 (-5)).1 7 = -5 ∧
      ¬ (0:ℚ) ≤ -5 := by
  refine ⟨?_, ?_, ?_, by norm_num⟩ <;>
    norm_num [admin_charge_wallet, ensure_agent, add_balance, balanceOf,
      updateAgent, dbAgent7, emptyDB, strStartsWith]

/-- C6 (amended): a balance that is non-negative stays non-negative under
every debit and under every credit of a non-negative amount; only a credit
of a negative amount (reachable via the admin wallet-charge flow) can make
it negative. -/
theorem c6_balance_nonneg (s : DBState) (tg : Nat) (op : WalletOp)
    (hb : 0 ≤ balanceOf s tg) (hop : opSafe op) :
    0 ≤ balanceOf (applyOp s op) tg := by
  cases op with
  | credit tg' a r m =>
      by_cases ht : tg = tg'
      · subst ht
        cases hA : s.agents tg with
        | none =>
            have : balanceOf (applyOp s (.credit tg a r m)) tg = 0 := by
              simp [applyOp, add_balance, balanceOf, updateAgent, hA]
            rw [this]
        | some row =>
            have hs : (s.agents tg).isSome := by simp [hA]
            show 0 ≤ balanceOf (add_balance s tg a r m).1 tg
            rw [add_balance_balance_self s tg a r m hs]
            exact add_nonneg hb hop
      · show 0 ≤ balanceOf (add_balance s tg' a r m).1 tg
        rw [add_balance_balance_other s tg' tg a r m ht]
        exact hb
  | debit tg' a r m =>
      rcases hE : deduct_balance s tg' a r m with e | ⟨s', b⟩
      · simpa [applyOp, hE] using hb
      · have happ : applyOp s (.debit tg' a r m) = s' := by simp [applyOp, hE]
        rw [happ]
        by_cases ht : tg = tg'
        · subst ht
          cases hA : s.agents tg with
          | none =>
              have hnone : s'.agents tg = none := by
                rw [(deduct_balance_ok_elim s s' tg a b r m hE).2]
                simp [updateAgent, hA]
              rw [balanceOf_of_agents_none s' tg hnone]
          | some row =>
              have hs : (s.agents tg).isSome := by simp [hA]
              have h1 := deduct_balance_ok_balance_self s s' tg a b r m hs hE
              have h2 := (deduct_balance_ok_elim s s' tg a b r m hE).1
              rw [h1]
              linarith [not_lt.mp h2]
        · rw [deduct_balance_ok_balance_other s s' tg' tg a b r m ht hE]
          exact hb

/-- C9 counterexample: Python's `round` rounds ties to even, not half-up.
With `price_per_gb = 0.125`, `price_per_day = 0`, `gb = 1`, `days = 1`, the
raw price is 0.125: the code prices it at 0.12 while the claimed half-up
rounding yields 0.13. -/
theorem c9_counterexample :
    inbound_price { emptyDB with pricePerGb := 1/8, pricePerDay := 0 } 1 1 1
        = .ok (12/100) ∧
      round2HalfUp ((1:ℚ) * (1/8) + (1:ℚ) * 0) = 13/100 ∧
      (12/100 : ℚ) ≠ 13/100 := by
  refine ⟨?_, ?_, by norm_num⟩
  · norm_num [inbound_price, emptyDB, round2, roundHalfEven, Int.floor_eq_iff]
  · norm_num [round2HalfUp, roundHalfUp, Int.floor_eq_iff]

/-- C9 (amended): the gross price is
`round2 (gb * price_per_gb + days * price_per_day)` — with `round2` rounding
ties to even, not half-up — resolving each price component from the
per-inbound rule when present, enabled and non-NULL and from the global
settings otherwise; for `bulk` the total is the rounded unit price times the
count, for `multi` the rounded sum of the per-inbound prices; and the spec's
own example (gb=50, days=30, 0.15/GB, 0.10/day) prices at 10.5. -/
theorem c9_pricing :
    (∀ (s : DBState) (i d g : Nat), s.inboundRules i = none →
        inbound_price s i d g
          = .ok (round2 ((g:ℚ) * s.pricePerGb + (d:ℚ) * s.pricePerDay))) ∧
      (∀ (s : DBState) (i d g : Nat) (rule : InboundRule),
        s.inboundRules i = some rule → rule.enabled = true →
        inbound_price s i d g
          = .ok (round2 ((g:ℚ) * rule.pricePerGb.getD s.pricePerGb
              + (d:ℚ) * rule.pricePerDay.getD s.pricePerDay))) ∧
      (∀ (s : DBState) (w : Wizard), w.kind = .bulk →
        order_total_price s w
          = (inbound_price s w.inboundId w.days w.gb).map
              (fun u => round2 (u * (w.count : ℚ)))) ∧
      (∀ (s : DBState) (w : Wizard), w.kind = .multi →
        order_total_price s w
          = (w.inboundIds.mapM (fun i => inbound_price s i w.days w.gb)).map
              (fun ps => round2 ps.sum)) ∧
      inbound_price emptyDB 5 30 50 = .ok (21/2) := by
  refine ⟨?_, ?_, ?_, ?_, ?_⟩
  · intro s i d g h
    simp [inbound_price, h]
  · intro s i d g rule h hen
    simp [inbound_price, h, hen]
  · intro s w hk
    cases hI : inbound_price s w.inboundId w.days w.gb <;>
      simp [order_total_price, hk, order_count, hI, Except.map]
  · intro s w hk
    cases hI : w.inboundIds.mapM (fun i => inbound_price s i w.days w.gb) <;>
    · unfold List.mapM at hI
      simp [order_total_price, hk, hI, Except.map]
  · norm_num [inbound_price, emptyDB, round2, roundHalfEven, Int.floor_eq_iff]

/-- Witness for C9 (amended): the global-settings case at the spec's example
numbers and a bulk order of 3 units. -/
theorem c9_pricing_witness :
    inbound_price emptyDB 1 30 50
        = .ok (round2 ((50:ℚ) * emptyDB.pricePerGb + (30:ℚ) * emptyDB.pricePerDay)) ∧
      order_total_price emptyDB
          { kind := .bulk, inboundId := 1, count := 3, days := 30, gb := 50 }
        = (inbound_price emptyDB 1 30 50).map (fun u => round2 (u * (3 : ℚ))) :=
  ⟨c9_pricing.1 emptyDB 1 30 50 rfl,
    c9_pricing.2.2.1 emptyDB
      { kind := .bulk, inboundId := 1, count := 3, days := 30, gb := 50 } rfl⟩

/-- C10: an out-of-range numeric input in the count, days or gb state —
any text whose parse fails (non-numeric or 0) or parses above the field's
maximum, other than a cancel token — re-prompts the same state: the session
(flow tag and in-progress wizard dict) is returned unchanged, and
`wizard_text_step` never writes the datastore (its type only reads it,
matching the source where these branches call no mutating db function). -/
theorem c10_wizard_validation (s : DBState) (agent : Option AgentRow)
    (sess : Session) (txt : String)
    (hc : is_cancel txt = false)
    (hv : ∀ v, parse_positive_int txt = some v →
        (sess.flow = .wCount → MAX_BULK_COUNT < v) ∧
        (sess.flow = .wDays → MAX_DAYS < v) ∧
        (sess.flow = .wGb → MAX_GB < v))
    (hf : sess.flow = .wCount ∨ sess.flow = .wDays ∨ sess.flow = .wGb) :
    wizard_text_step s agent sess txt = (sess, .reprompt) := by
  rcases hf with hf | hf | hf <;>
  · cases hp : parse_positive_int txt with
    | none => simp [wizard_text_step, hc, hf, hp]
    | some v =>
        have hb := hv v hp
        simp [wizard_text_step, hc, hf, hp, hb.1 , hb.2.1, hb.2.2]

/-- Witness for C10: `days=0` and `days=MAX_DAYS+1=366` in the Days state. -/
theorem c10_wizard_validation_witness :
    (is_cancel "0" = false ∧
        wizard_text_step emptyDB none { flow := .wDays } "0"
          = ({ flow := .wDays }, .reprompt)) ∧
      (is_cancel "366" = false ∧
        wizard_text_step emptyDB none { flow := .wDays } "366"
          = ({ flow := .wDays }, .reprompt)) :=
  ⟨⟨by decide,
      c10_wizard_validation emptyDB none { flow := .wDays } "0" (by decide)
        (by intro v hv
            rw [show parse_positive_int "0" = none from by decide] at hv
            cases hv)
        (.inr (.inl rfl))⟩,
    ⟨by decide,
      c10_wizard_validation emptyDB none { flow := .wDays } "366" (by decide)
        (by intro v hv
            rw [show parse_positive_int "366" = some 366 from by decide] at hv
            cases hv
            decide)
        (.inr (.inl rfl))⟩⟩

/-- The provisioning block never changes the datastore: each branch either
fails on an external call before any write, or raises `TypeError` at its
`save_created_client` call before any INSERT. -/
theorem runProvision_state (oracle : Nat → Bool) (uid : Nat) (w : Wizard)
    (s1 : DBState) : (runProvision oracle uid w s1).1 = s1 := by
  unfold runProvision
  by_cases h0 : oracle 0
  · cases hk : w.kind <;>
      by_cases h1 : oracle 1 <;>
      by_cases hc : w.count = 0 <;>
      by_cases h2 : oracle 2 <;>
      simp [h0, h1, h2, hc]
  · simp [h0]

/-- Projections of the compensation path. -/
theorem sagaFail_proj (st : DBState) (sess1 : Session) (uid inbound0 : Nat)
    (w : Wizard) (count : Nat) (gross disc net : ℚ)
    (tr : List (ApiCall × Bool)) :
    (sagaFail st sess1 uid inbound0 w count gross disc net tr).db.ledger
        = { tgId := uid, amount := net, reason := "order.refund", meta := "" }
          :: st.ledger ∧
      (sagaFail st sess1 uid inbound0 w count gross disc net tr).db.orders
        = { tgId := uid, inboundId := inbound0, kind := w.kind.str,
            days := w.days, gb := w.gb, count := count, grossPrice := gross,
            discountPercent := disc, netPrice := net, status := "failed" }
          :: st.orders ∧
      (sagaFail st sess1 uid inbound0 w count gross disc net tr).db.createdClients
        = st.createdClients ∧
      (sagaFail st sess1 uid inbound0 w count gross disc net tr).result = .failed ∧
      (sagaFail st sess1 uid inbound0 w count gross disc net tr).trace = tr ∧
      (sagaFail st sess1 uid inbound0 w count gross disc net tr).sess
        = reset_flow sess1 ∧
      balanceOf (sagaFail st sess1 uid inbound0 w count gross disc net tr).db uid
        = balanceOf (add_balance st uid net "order.refund" "").1 uid :=
  ⟨rfl, rfl, rfl, rfl, rfl, rfl, rfl⟩

/-- Elimination form of a saga run that ended `.failed`: pricing succeeded,
the agent was active, the reserve debit succeeded, some provisioning call
failed, and the run is the compensation path. -/
theorem finalize_order_failed_elim (s : DBState) (sess : Session) (uid : Nat)
    (w : Wizard) (oracle : Nat → Bool)
    (h : (finalize_order s sess uid w oracle).result = .failed) :
    ∃ gross s1 b,
      order_total_price s w = .ok gross ∧
      (∃ ag, s.agents uid = some ag ∧ ag.isActive = true) ∧
      deduct_balance s uid
          (round2 (gross * (1 - sess.promoDiscount.getD 0 / 100)))
          "order.charge" "" = .ok (s1, b) ∧
      (runProvision oracle uid w s1).2.2 = false ∧
      finalize_order s sess uid w oracle
        = sagaFail (runProvision oracle uid w s1).1
            { sess with promoDiscount := none } uid (sagaInbound0 w) w
            (order_count w) gross (sess.promoDiscount.getD 0)
            (round2 (gross * (1 - sess.promoDiscount.getD 0 / 100)))
            (runProvision oracle uid w s1).2.1 := by
  cases hg : order_total_price s w with
  | error e => simp [finalize_order, hg] at h
  | ok gross =>
      cases ha : s.agents uid with
      | none => simp [finalize_order, hg, ha] at h
      | some ag =>
          by_cases hact : ag.isActive
          · rcases hd : deduct_balance s uid
                (round2 (gross * (1 - sess.promoDiscount.getD 0 / 100)))
                "order.charge" "" with e | p
            · simp [finalize_order, hg, ha, hact, hd] at h
            · obtain ⟨s1, b⟩ := p
              by_cases hok : (runProvision oracle uid w s1).2.2
              · simp [finalize_order, hg, ha, hact, hd, hok] at h
              · refine ⟨gross, s1, b, rfl, ⟨ag, rfl, hact⟩, hd,
                  by simpa using hok, ?_⟩
                simp [finalize_order, hg, ha, hact, hd, hok, sagaInbound0]
          · simp [finalize_order, hg, ha, hact] at h

/-- Elimination form of a saga run that aborted on `InsufficientBalance`:
the run changed nothing besides popping the promo discount and resetting the
wizard session, and made no external call. -/
theorem finalize_order_insufficient_elim (s : DBState) (sess : Session)
    (uid : Nat) (w : Wizard) (oracle : Nat → Bool)
    (h : (finalize_order s sess uid w oracle).result = .abortedInsufficient) :
    finalize_order s sess uid w oracle
      = { db := s, sess := reset_flow { sess with promoDiscount := none },
          result := .abortedInsufficient, trace := [] } := by
  cases hg : order_total_price s w with
  | error e => simp [finalize_order, hg] at h
  | ok gross =>
      cases ha : s.agents uid with
      | none => simp [finalize_order, hg, ha] at h
      | some ag =>
          by_cases hact : ag.isActive
          · rcases hd : deduct_balance s uid
                (round2 (gross * (1 - sess.promoDiscount.getD 0 / 100)))
                "order.charge" "" with e | p
            · simp [finalize_order, hg, ha, hact, hd]
            · obtain ⟨s1, b⟩ := p
              by_cases hok : (runProvision oracle uid w s1).2.2 <;>
                simp [finalize_order, hg, ha, hact, hd, hok, sagaFail] at h
          · simp [finalize_order, hg, ha, hact] at h

/-- C1: whenever the reserve debit succeeded and a later provisioning step
raised (the run ended `.failed`), the final ledger is exactly a credit of the
net amount with reason "order.refund" on top of the debit of the same net
with reason "order.charge"; a failed Order row carrying the attempted
parameters is persisted; and the agent's final balance equals the pre-saga
balance. -/
theorem c1_saga_compensation (s : DBState) (sess : Session) (uid : Nat)
    (w : Wizard) (oracle : Nat → Bool)
    (h : (finalize_order s sess uid w oracle).result = .failed) :
    (finalize_order s sess uid w oracle).db.ledger
        = { tgId := uid, amount := sagaNet s sess w, reason := "order.refund",
            meta := "" }
          :: { tgId := uid, amount := -(sagaNet s sess w),
               reason := "order.charge", meta := "" }
          :: s.ledger
      ∧ (finalize_order s sess uid w oracle).db.orders
        = { tgId := uid, inboundId := sagaInbound0 w, kind := w.kind.str,
            days := w.days, gb := w.gb, count := order_count w,
            grossPrice := sagaGross s w, discountPercent := sagaDisc sess,
            netPrice := sagaNet s sess w, status := "failed" } :: s.orders
      ∧ balanceOf (finalize_order s sess uid w oracle).db uid
        = balanceOf s uid := by
  obtain ⟨gross, s1, b, hg, ⟨ag, ha, hact⟩, hd, hok, hEq⟩ :=
    finalize_order_failed_elim s sess uid w oracle h
  have hgross : sagaGross s w = gross := by
    simp [sagaGross, hg, Except.toOption]
  have hnet : sagaNet s sess w
      = round2 (gross * (1 - sess.promoDiscount.getD 0 / 100)) := by
    simp [sagaNet, sagaGross, sagaDisc, hg, Except.toOption]
  have hst := runProvision_state oracle uid w s1
  have hled1 := deduct_balance_ok_ledger s s1 uid _ b "order.charge" "" hd
  have hord1 := deduct_balance_ok_orders s s1 uid _ b "order.charge" "" hd
  have hsome : (s.agents uid).isSome := by simp [ha]
  have hbal1 := deduct_balance_ok_balance_self s s1 uid _ b "order.charge" ""
    hsome hd
  have hproj := sagaFail_proj (runProvision oracle uid w s1).1
    { sess with promoDiscount := none } uid (sagaInbound0 w) w (order_count w)
    gross (sess.promoDiscount.getD 0)
    (round2 (gross * (1 - sess.promoDiscount.getD 0 / 100)))
    (runProvision oracle uid w s1).2.1
  rw [hEq]
  refine ⟨?_, ?_, ?_⟩
  · rw [hproj.1, hst, hled1, hnet]
  · rw [hproj.2.1, hst, hord1, hgross, hnet]
    rfl
  · rw [hproj.2.2.2.2.2.2, hst]
    have hsome1 : (s1.agents uid).isSome :=
      deduct_balance_ok_agents_isSome s s1 uid uid _ b "order.charge" "" hsome hd
    rw [add_balance_balance_self s1 uid _ "order.refund" "" hsome1, hbal1]
    ring

/-- The scenario store holds agent 7 with the given balance. -/
theorem sagaDB_agent (b : ℚ) : (sagaDB b).agents 7 = some { balance := b } := rfl

/-- In the scenario store a single 30-day/50-GB client grosses 20. -/
theorem sagaDB_gross_single (b : ℚ) :
    order_total_price (sagaDB b) wSingle = .ok 20 := by
  norm_num [order_total_price, inbound_price, order_count, sagaDB, emptyDB,
    wSingle, round2, roundHalfEven, Int.floor_eq_iff]

/-- Net of a gross of 20 under a 25% discount. -/
theorem net25 : round2 (20 * (1 - (25:ℚ) / 100)) = 15 := by
  norm_num [round2, roundHalfEven, Int.floor_eq_iff]

/-- For a `single` order the provisioning block never completes: even with
every external call succeeding, the `save_created_client` call raises
`TypeError` before `add_clients`. -/
theorem runProvision_single_incomplete (oracle : Nat → Bool) (uid : Nat)
    (w : Wizard) (s1 : DBState) (hk : w.kind = .single) :
    (runProvision oracle uid w s1).2.2 = false := by
  unfold runProvision
  by_cases h0 : oracle 0 <;> by_cases h1 : oracle 1 <;> simp [hk, h0, h1]

/-- Introduction form of a `.failed` saga run. -/
theorem finalize_order_failed_intro (s : DBState) (sess : Session) (uid : Nat)
    (w : Wizard) (oracle : Nat → Bool) (gross : ℚ) (s1 : DBState) (b : ℚ)
    (ag : AgentRow)
    (hg : order_total_price s w = .ok gross)
    (ha : s.agents uid = some ag) (hact : ag.isActive = true)
    (hd : deduct_balance s uid
        (round2 (gross * (1 - sess.promoDiscount.getD 0 / 100)))
        "order.charge" "" = .ok (s1, b))
    (hok : (runProvision oracle uid w s1).2.2 = false) :
    (finalize_order s sess uid w oracle).result = .failed := by
  simp [finalize_order, hg, ha, hact, hd, hok, sagaFail]

/-- The concrete compensation scenario: balance 20, gross 20, 25% discount,
net 15; after login and `get_inbound` succeed, provisioning raises (the
`save_created_client` `TypeError`) — the run ends `.failed`. -/
theorem saga_single_fail2_result :
    (finalize_order (sagaDB 20) sessPromo 7 wSingle (failFrom 2)).result
      = .failed := by
  have hnlt : ¬ balanceOf (sagaDB 20) 7 < round2 (20 * (1 - (25:ℚ) / 100)) := by
    rw [net25]
    norm_num [balanceOf, sagaDB, emptyDB]
  rcases hE : deduct_balance (sagaDB 20) 7
      (round2 (20 * (1 - (25:ℚ) / 100))) "order.charge" "" with e | p
  · exact absurd hE (by simp [deduct_balance, hnlt])
  · obtain ⟨s1, b⟩ := p
    exact finalize_order_failed_intro (sagaDB 20) sessPromo 7 wSingle
      (failFrom 2) 20 s1 b { balance := 20 } (sagaDB_gross_single 20)
      (sagaDB_agent 20) rfl hE
      (runProvision_single_incomplete (failFrom 2) 7 wSingle s1 rfl)

/-- The concrete insufficient-balance scenario: balance 1, net 15 — the run
aborts on `InsufficientBalance`. -/
theorem saga_single_insufficient_result :
    (finalize_order (sagaDB 1) sessPromo 7 wSingle (failFrom 2)).result
      = .abortedInsufficient := by
  have hlt : balanceOf (sagaDB 1) 7 < 15 := by
    norm_num [balanceOf, sagaDB, emptyDB]
  have hdd := deduct_balance_error_of_lt (sagaDB 1) 7 15 "order.charge" "" hlt
  simp [finalize_order, sagaDB_gross_single 1, sessPromo, net25, hdd,
    sagaDB_agent]

/-- C4 counterexample: the saga pops the pending promo discount *before* the
reserve debit, so an `InsufficientBalance` abort still consumes it — it is
not left pending for the next attempt as the claim states. -/
theorem c4_counterexample :
    sessPromo.promoDiscount = some 25 ∧
      (finalize_order (sagaDB 1) sessPromo 7 wSingle (failFrom 2)).result
        = .abortedInsufficient ∧
      (finalize_order (sagaDB 1) sessPromo 7 wSingle (failFrom 2)).sess.promoDiscount
        = none := by
  have hu : order_total_price (sagaDB 1) wSingle = .ok 20 := by
    norm_num [order_total_price, inbound_price, order_count, sagaDB, emptyDB,
      wSingle, round2, roundHalfEven, Int.floor_eq_iff]
  have hnet : round2 (20 * (1 - (25:ℚ) / 100)) = 15 := by
    norm_num [round2, roundHalfEven, Int.floor_eq_iff]
  have hlt : balanceOf (sagaDB 1) 7 < 15 := by
    norm_num [balanceOf, sagaDB, emptyDB]
  have hdd := deduct_balance_error_of_lt (sagaDB 1) 7 15 "order.charge" "" hlt
  refine ⟨rfl, ?_, ?_⟩ <;>
    simp [finalize_order, hu, sessPromo, hnet, hdd, reset_flow, sagaDB_agent]

/-- C4 (amended): when the reserve debit fails with `InsufficientBalance`
the saga aborts with no Order row, no ledger change, no provisioning call and
no balance change — but the pending promo discount is consumed (cleared from
the session), not left pending. -/
theorem c4_insufficient_abort (s : DBState) (sess : Session) (uid : Nat)
    (w : Wizard) (oracle : Nat → Bool)
    (h : (finalize_order s sess uid w oracle).result = .abortedInsufficient) :
    (finalize_order s sess uid w oracle).db.orders = s.orders ∧
      (finalize_order s sess uid w oracle).db.ledger = s.ledger ∧
      (finalize_order s sess uid w oracle).db.createdClients = s.createdClients ∧
      (∀ t, balanceOf (finalize_order s sess uid w oracle).db t = balanceOf s t) ∧
      (finalize_order s sess uid w oracle).trace = [] ∧
      (finalize_order s sess uid w oracle).sess.promoDiscount = none := by
  rw [finalize_order_insufficient_elim s sess uid w oracle h]
  exact ⟨rfl, rfl, rfl, fun t => rfl, rfl, rfl⟩

/-- C5: no saga run ever records a `created_clients` row — every
`save_created_client` call site passes 11 positional arguments to the
9-parameter db.py function, raising `TypeError` before any INSERT — so a
fortiori a row is recorded only after the covering `add_clients` call
succeeded: a row never exists for a unit whose `add_clients` call has not
yet succeeded (the claim holds vacuously of this source). -/
theorem c5_rows_only_after_success (s : DBState) (sess : Session) (uid : Nat)
    (w : Wizard) (oracle : Nat → Bool) :
    (finalize_order s sess uid w oracle).db.createdClients
      = s.createdClients := by
  cases hg : order_total_price s w with
  | error e => simp [finalize_order, hg]
  | ok gross =>
      cases ha : s.agents uid with
      | none => simp [finalize_order, hg, ha]
      | some ag =>
          by_cases hact : ag.isActive
          · rcases hd : deduct_balance s uid
                (round2 (gross * (1 - sess.promoDiscount.getD 0 / 100)))
                "order.charge" "" with e | p
            · simp [finalize_order, hg, ha, hact, hd]
            · obtain ⟨s1, b⟩ := p
              have hcc := deduct_balance_ok_createdClients s s1 uid _ b
                "order.charge" "" hd
              have hst := runProvision_state oracle uid w s1
              by_cases hok : (runProvision oracle uid w s1).2.2 <;>
                simp [finalize_order, hg, ha, hact, hd, hok, create_order,
                  sagaFail, add_balance, updateAgent, hst, hcc]
          · simp [finalize_order, hg, ha, hact]

/-- Witness for C1: balance 20, gross 20, discount 25%, net 15; after the
debit, provisioning raises (the `save_created_client` `TypeError`); the saga
refunds 15 after debiting 15, writes the failed order row, and restores the
balance to 20. -/
theorem c1_saga_compensation_witness :
    (finalize_order (sagaDB 20) sessPromo 7 wSingle (failFrom 2)).result
        = .failed ∧
      ((finalize_order (sagaDB 20) sessPromo 7 wSingle (failFrom 2)).db.ledger
          = { tgId := 7, amount := sagaNet (sagaDB 20) sessPromo wSingle,
              reason := "order.refund", meta := "" }
            :: { tgId := 7, amount := -(sagaNet (sagaDB 20) sessPromo wSingle),
                 reason := "order.charge", meta := "" }
            :: (sagaDB 20).ledger
        ∧ (finalize_order (sagaDB 20) sessPromo 7 wSingle (failFrom 2)).db.orders
          = { tgId := 7, inboundId := sagaInbound0 wSingle,
              kind := wSingle.kind.str, days := wSingle.days, gb := wSingle.gb,
              count := order_count wSingle,
              grossPrice := sagaGross (sagaDB 20) wSingle,
              discountPercent := sagaDisc sessPromo,
              netPrice := sagaNet (sagaDB 20) sessPromo wSingle,
              status := "failed" } :: (sagaDB 20).orders
        ∧ balanceOf (finalize_order (sagaDB 20) sessPromo 7 wSingle (failFrom 2)).db 7
          = balanceOf (sagaDB 20) 7) :=
  ⟨saga_single_fail2_result,
    c1_saga_compensation (sagaDB 20) sessPromo 7 wSingle (failFrom 2)
      saga_single_fail2_result⟩

/-- Witness for C4 (amended): balance 1, net 15 — the abort leaves the store
untouched, makes no external call, and clears the pending discount. -/
theorem c4_insufficient_abort_witness :
    (finalize_order (sagaDB 1) sessPromo 7 wSingle (failFrom 2)).result
        = .abortedInsufficient ∧
      ((finalize_order (sagaDB 1) sessPromo 7 wSingle (failFrom 2)).db.orders
          = (sagaDB 1).orders ∧
        (finalize_order (sagaDB 1) sessPromo 7 wSingle (failFrom 2)).db.ledger
          = (sagaDB 1).ledger ∧
        (finalize_order (sagaDB 1) sessPromo 7 wSingle (failFrom 2)).db.createdClients
          = (sagaDB 1).createdClients ∧
        (∀ t, balanceOf (finalize_order (sagaDB 1) sessPromo 7 wSingle (failFrom 2)).db t
          = balanceOf (sagaDB 1) t) ∧
        (finalize_order (sagaDB 1) sessPromo 7 wSingle (failFrom 2)).trace = [] ∧
        (finalize_order (sagaDB 1) sessPromo 7 wSingle (failFrom 2)).sess.promoDiscount
          = none) :=
  ⟨saga_single_insufficient_result,
    c4_insufficient_abort (sagaDB 1) sessPromo 7 wSingle (failFrom 2)
      saga_single_insufficient_result⟩

/-- Witness for C6 (amended): balance 20, a debit of 15 and a credit of 15
each keep the balance non-negative. -/
theorem c6_balance_nonneg_witness :
    (0 ≤ balanceOf (dbAgent7 20) 7 ∧ opSafe (.debit 7 15 "order.charge" "") ∧
        0 ≤ balanceOf (applyOp (dbAgent7 20) (.debit 7 15 "order.charge" "")) 7) ∧
      (opSafe (.credit 7 15 "order.refund" "") ∧
        0 ≤ balanceOf (applyOp (dbAgent7 20) (.credit 7 15 "order.refund" "")) 7) :=
  ⟨⟨by norm_num [balanceOf, dbAgent7, emptyDB], by simp [opSafe],
      c6_balance_nonneg (dbAgent7 20) 7 (.debit 7 15 "order.charge" "")
        (by norm_num [balanceOf, dbAgent7, emptyDB]) (by simp [opSafe])⟩,
    ⟨by norm_num [opSafe],
      c6_balance_nonneg (dbAgent7 20) 7 (.credit 7 15 "order.refund" "")
        (by norm_num [balanceOf, dbAgent7, emptyDB]) (by norm_num [opSafe])⟩⟩

end XuiBot
